import Mathlib

/-!
Shallow embedding of populate_nfl_data.py: a script that creates four
Postgres tables, seeds 32 NFL teams, and fetches/upserts game rows from a
scoreboard HTTP API for season 2025, weeks 1..11.

JSON values are modelled by an inductive `Json`; Python dict/list
operations used by the script (dict.get, truthiness, iteration, indexing,
int conversion, str.split) are modelled by `py*` helpers that return
`Except String` where Python would raise.  Database tables are modelled as
lists of rows; each top-level function of the script becomes a Lean
function threading the database state explicitly and returning the lines
it prints.
-/

inductive Json where
  | null
  | bool (b : Bool)
  | num (n : Int)
  | str (s : String)
  | arr (elems : List Json)
  | obj (fields : List (String × Json))
  deriving Repr

mutual

/-- Structural equality of JSON values, modelling Python == on the parsed
dict/list/str/int/None values. -/
def Json.beq : Json → Json → Bool
  | .null, .null => true
  | .bool a, .bool c => a == c
  | .num a, .num c => a == c
  | .str a, .str c => a == c
  | .arr xs, .arr ys => Json.beqList xs ys
  | .obj fs, .obj gs => Json.beqFields fs gs
  | _, _ => false

/-- Elementwise equality of JSON arrays. -/
def Json.beqList : List Json → List Json → Bool
  | [], [] => true
  | x :: xs, y :: ys => Json.beq x y && Json.beqList xs ys
  | _, _ => false

/-- Keywise equality of JSON object field lists. -/
def Json.beqFields : List (String × Json) → List (String × Json) → Bool
  | [], [] => true
  | (k, v) :: fs, (l, w) :: gs => k == l && Json.beq v w && Json.beqFields fs gs
  | _, _ => false

end

namespace Json

/-- Python type name of the value, used in error messages. -/
def typeName : Json → String
  | .null => "NoneType"
  | .bool _ => "bool"
  | .num _ => "int"
  | .str _ => "str"
  | .arr _ => "list"
  | .obj _ => "dict"

/-- Message of the AttributeError raised when .get is called on a non-dict. -/
def attrGetErr (j : Json) : String :=
  j.typeName ++ " object has no attribute get"

/-- First-match lookup in an object field list (JSON objects parsed by
Python have unique keys, so first-match agrees with dict lookup). -/
def pyLookup : List (String × Json) → String → Option Json
  | [], _ => none
  | (k, v) :: rest, key => if k = key then some v else pyLookup rest key

/-- Python dict.get(key): None when the key is missing; AttributeError when
the receiver is not a dict. -/
def pyGet (j : Json) (key : String) : Except String Json :=
  match j with
  | .obj fields =>
    match pyLookup fields key with
    | some v => Except.ok v
    | none => Except.ok Json.null
  | _ => Except.error j.attrGetErr

/-- Python dict.get(key, default): the default is used only when the key is
missing, never when it maps to None. -/
def pyGetD (j : Json) (key : String) (dflt : Json) : Except String Json :=
  match j with
  | .obj fields =>
    match pyLookup fields key with
    | some v => Except.ok v
    | none => Except.ok dflt
  | _ => Except.error j.attrGetErr

/-- Python truthiness: None, False, 0, empty string/list/dict are falsy. -/
def pyFalsy : Json → Bool
  | .null => true
  | .bool b => !b
  | .num n => decide (n = 0)
  | .str s => decide (s = "")
  | .arr elems => elems.isEmpty
  | .obj fields => fields.isEmpty

/-- Python iteration: lists yield elements, strings yield one-character
strings, dicts yield their keys; other values raise TypeError. -/
def pyIter : Json → Except String (List Json)
  | .arr elems => Except.ok elems
  | .str s => Except.ok (s.toList.map (fun c => Json.str (String.mk [c])))
  | .obj fields => Except.ok (fields.map (fun kv => Json.str kv.1))
  | j => Except.error (j.typeName ++ " object is not iterable")

/-- Python indexing with 0, as in competitions[0]. -/
def pyIndex0 : Json → Except String Json
  | .arr [] => Except.error "list index out of range"
  | .arr (x :: _) => Except.ok x
  | .str s =>
    match s.toList with
    | [] => Except.error "string index out of range"
    | c :: _ => Except.ok (Json.str (String.mk [c]))
  | .obj _ => Except.error "KeyError: 0"
  | j => Except.error (j.typeName ++ " object is not subscriptable")

/-- Python int(x) on the modelled values: ints pass through, bools map to
0/1, strings of an optional sign and decimal digits parse (underscore
separators and surrounding whitespace are not modelled), everything else
raises. -/
def pyInt : Json → Except String Int
  | .num n => Except.ok n
  | .bool b => Except.ok (if b then 1 else 0)
  | .str s =>
    let digits :=
      if s.startsWith "-" ∨ s.startsWith "+" then s.drop 1 else s
    if digits ≠ "" ∧ digits.toList.all Char.isDigit then
      let mag : Int := Int.ofNat (digits.foldl (fun acc c => acc * 10 + (c.toNat - 48)) 0)
      Except.ok (if s.startsWith "-" then -mag else mag)
    else Except.error ("invalid literal for int with base 10: " ++ s)
  | j => Except.error ("int argument must be a string or a number, not " ++ j.typeName)

/-- Python date.split(chr)[0] where date must be a string: the prefix up to
the first occurrence of the separator character. -/
def pySplitHeadT : Json → Except String String
  | .str s => Except.ok (String.mk (s.toList.takeWhile (fun c => c ≠ 'T')))
  | j => Except.error (j.typeName ++ " object has no attribute split")

end Json

/-!
Rows of the nfl_games table as built by populate_games.  A tuple field
that Python may leave as None or fill with an arbitrary JSON value is
modelled as Json (with Json.null for None); scores are Option Int because
they are either None or the result of int(...).
-/

structure GameRow where
  game_id : Json
  season : Int
  week : Json
  game_date : String
  home_team : Json
  away_team : Json
  home_score : Option Int
  away_score : Option Int
  status : Json
  deriving Repr

/-- A stored nfl_games row: the mutable columns plus the created_at and
updated_at timestamp columns (CURRENT_TIMESTAMP modelled as a Nat clock). -/
structure StoredGame where
  row : GameRow
  created_at : Nat
  updated_at : Nat
  deriving Repr

/-- State of the competitor loop: home_team, away_team, home_score,
away_score, all initialised to None. -/
structure CompState where
  home_team : Json
  away_team : Json
  home_score : Option Int
  away_score : Option Int
  deriving Repr

def CompState.init : CompState :=
  { home_team := Json.null, away_team := Json.null,
    home_score := none, away_score := none }

/-- Body of the competitor loop: competitors whose homeAway field equals
the string home fill the home side, all others fill the away side. -/
def stepCompetitor (st : CompState) (competitor : Json) : Except String CompState := do
  let ha ← competitor.pyGet "homeAway"
  if Json.beq ha (Json.str "home") then do
    let team ← competitor.pyGetD "team" (Json.obj [])
    let abbr ← team.pyGet "abbreviation"
    let scoreJ ← competitor.pyGetD "score" (Json.num 0)
    let score ← Json.pyInt scoreJ
    pure { st with home_team := abbr, home_score := some score }
  else do
    let team ← competitor.pyGetD "team" (Json.obj [])
    let abbr ← team.pyGet "abbreviation"
    let scoreJ ← competitor.pyGetD "score" (Json.num 0)
    let score ← Json.pyInt scoreJ
    pure { st with away_team := abbr, away_score := some score }

/-- The competitor loop over the competitors list. -/
def foldCompetitors (st : CompState) (competitors : List Json) : Except String CompState :=
  competitors.foldlM stepCompetitor st

/-- competition.get with status/type/name chain, defaulting to scheduled
exactly when a key on the path is missing. -/
def statusOf (competition : Json) : Except String Json := do
  let s ← competition.pyGetD "status" (Json.obj [])
  let t ← s.pyGetD "type" (Json.obj [])
  t.pyGetD "name" (Json.str "scheduled")

/-- Python truthiness of the week argument (None or 0 are falsy). -/
def weekTruthy : Option Int → Bool
  | none => false
  | some w => decide (w ≠ 0)

/-- The week column value: the week argument when truthy, otherwise
event.get week .get number with default 1. -/
def weekValue (week : Option Int) (event : Json) : Except String Json :=
  if weekTruthy week then
    pure (Json.num (week.getD 0))
  else do
    let wk ← event.pyGetD "week" (Json.obj [])
    wk.pyGetD "number" (Json.num 1)

/-- Body of the event loop of populate_games: returns none when the event
is skipped because its competitions list is falsy (missing or empty). -/
def parseEvent (season : Int) (week : Option Int) (event : Json) :
    Except String (Option GameRow) := do
  let game_id ← event.pyGet "id"
  let dateJ ← event.pyGetD "date" (Json.str "")
  let game_date ← Json.pySplitHeadT dateJ
  let competitions ← event.pyGetD "competitions" (Json.arr [])
  if Json.pyFalsy competitions then
    pure none
  else do
    let competition ← Json.pyIndex0 competitions
    let competitorsJ ← competition.pyGetD "competitors" (Json.arr [])
    let competitors ← Json.pyIter competitorsJ
    let st ← foldCompetitors CompState.init competitors
    let status ← statusOf competition
    let wk ← weekValue week event
    pure (some
      { game_id := game_id, season := season, week := wk, game_date := game_date,
        home_team := st.home_team, away_team := st.away_team,
        home_score := st.home_score, away_score := st.away_score, status := status })

/-- One iteration of the event loop: append the parsed row, or keep the
accumulator when the event was skipped. -/
def collectEvent (season : Int) (week : Option Int) (acc : List GameRow) (e : Json) :
    Except String (List GameRow) := do
  match ← parseEvent season week e with
  | none => pure acc
  | some r => pure (acc ++ [r])

/-- The event loop: data.get events with default empty list, iterating and
collecting the rows of non-skipped events in order. -/
def parseGames (season : Int) (week : Option Int) (data : Json) :
    Except String (List GameRow) := do
  let eventsJ ← data.pyGetD "events" (Json.arr [])
  let events ← Json.pyIter eventsJ
  events.foldlM (collectEvent season week) []

/-!
Database model: the schema is a list of table definitions, the nfl_teams
and nfl_games tables are lists of rows.  The nfl_players and
nfl_player_stats tables are never populated by the script, so only their
definitions appear in the schema.
-/

/-- A column of a CREATE TABLE statement: name and the literal SQL type
with its inline constraints. -/
structure ColumnDef where
  name : String
  sqlType : String
  deriving DecidableEq, Repr

/-- A table definition: name, columns, and table-level constraints. -/
structure TableDef where
  name : String
  columns : List ColumnDef
  constraints : List String
  deriving DecidableEq, Repr

/-- A row of nfl_teams as inserted by populate_teams. -/
structure TeamRow where
  team_name : String
  team_abbr : String
  conference : String
  division : String
  deriving DecidableEq, Repr

/-- The whole database state touched by the script. -/
structure DB where
  schema : List TableDef
  teams : List TeamRow
  games : List StoredGame

/-- An open database connection, owned by the caller. -/
structure Conn where
  url : String
  deriving DecidableEq, Repr

/-- os.getenv result for DATABASE_URL; None when the variable is unset. -/
def get_db_connection (env : Option String) : Except String Conn :=
  match env with
  | none => Except.error "DATABASE_URL environment variable not set"
  | some database_url =>
    if database_url = "" then
      Except.error "DATABASE_URL environment variable not set"
    else Except.ok { url := database_url }

def nflTeamsTable : TableDef :=
  { name := "nfl_teams",
    columns := [
      { name := "id", sqlType := "SERIAL PRIMARY KEY" },
      { name := "team_name", sqlType := "VARCHAR(100) NOT NULL" },
      { name := "team_abbr", sqlType := "VARCHAR(10) NOT NULL UNIQUE" },
      { name := "conference", sqlType := "VARCHAR(10)" },
      { name := "division", sqlType := "VARCHAR(20)" },
      { name := "created_at", sqlType := "TIMESTAMP DEFAULT CURRENT_TIMESTAMP" }],
    constraints := [] }

def nflGamesTable : TableDef :=
  { name := "nfl_games",
    columns := [
      { name := "id", sqlType := "SERIAL PRIMARY KEY" },
      { name := "game_id", sqlType := "VARCHAR(50) UNIQUE" },
      { name := "season", sqlType := "INTEGER" },
      { name := "week", sqlType := "INTEGER" },
      { name := "game_date", sqlType := "DATE" },
      { name := "home_team", sqlType := "VARCHAR(10)" },
      { name := "away_team", sqlType := "VARCHAR(10)" },
      { name := "home_score", sqlType := "INTEGER" },
      { name := "away_score", sqlType := "INTEGER" },
      { name := "status", sqlType := "VARCHAR(20)" },
      { name := "created_at", sqlType := "TIMESTAMP DEFAULT CURRENT_TIMESTAMP" },
      { name := "updated_at", sqlType := "TIMESTAMP DEFAULT CURRENT_TIMESTAMP" }],
    constraints := [] }

def nflPlayersTable : TableDef :=
  { name := "nfl_players",
    columns := [
      { name := "id", sqlType := "SERIAL PRIMARY KEY" },
      { name := "player_id", sqlType := "VARCHAR(50) UNIQUE" },
      { name := "player_name", sqlType := "VARCHAR(100) NOT NULL" },
      { name := "team", sqlType := "VARCHAR(10)" },
      { name := "position", sqlType := "VARCHAR(10)" },
      { name := "jersey_number", sqlType := "INTEGER" },
      { name := "created_at", sqlType := "TIMESTAMP DEFAULT CURRENT_TIMESTAMP" },
      { name := "updated_at", sqlType := "TIMESTAMP DEFAULT CURRENT_TIMESTAMP" }],
    constraints := [] }

def nflPlayerStatsTable : TableDef :=
  { name := "nfl_player_stats",
    columns := [
      { name := "id", sqlType := "SERIAL PRIMARY KEY" },
      { name := "player_id", sqlType := "VARCHAR(50)" },
      { name := "game_id", sqlType := "VARCHAR(50)" },
      { name := "season", sqlType := "INTEGER" },
      { name := "week", sqlType := "INTEGER" },
      { name := "passing_yards", sqlType := "INTEGER DEFAULT 0" },
      { name := "passing_tds", sqlType := "INTEGER DEFAULT 0" },
      { name := "interceptions", sqlType := "INTEGER DEFAULT 0" },
      { name := "rushing_yards", sqlType := "INTEGER DEFAULT 0" },
      { name := "rushing_tds", sqlType := "INTEGER DEFAULT 0" },
      { name := "receptions", sqlType := "INTEGER DEFAULT 0" },
      { name := "receiving_yards", sqlType := "INTEGER DEFAULT 0" },
      { name := "receiving_tds", sqlType := "INTEGER DEFAULT 0" },
      { name := "created_at", sqlType := "TIMESTAMP DEFAULT CURRENT_TIMESTAMP" }],
    constraints := [
      "FOREIGN KEY (player_id) REFERENCES nfl_players(player_id)",
      "FOREIGN KEY (game_id) REFERENCES nfl_games(game_id)"] }

/-- CREATE TABLE IF NOT EXISTS: a no-op when a table of that name exists,
otherwise the definition is added. -/
def createIfNotExists (schema : List TableDef) (t : TableDef) : List TableDef :=
  if schema.any (fun td => decide (td.name = t.name)) then schema else schema ++ [t]

/-- The four CREATE TABLE IF NOT EXISTS statements of create_tables, in
source order. -/
def createAllTables (schema : List TableDef) : List TableDef :=
  [nflTeamsTable, nflGamesTable, nflPlayersTable, nflPlayerStatsTable].foldl
    createIfNotExists schema

/-- create_tables: connects, issues the four CREATE TABLE IF NOT EXISTS
statements, commits, closes, prints a confirmation. -/
def create_tables (env : Option String) (db : DB) : Except String (DB × List String) :=
  match get_db_connection env with
  | Except.error e => Except.error e
  | Except.ok _ =>
    Except.ok
      ({ db with schema := createAllTables db.schema },
       ["Tables created successfully"])

/-- The fixed embedded list of team records of populate_teams. -/
def teams : List TeamRow := [
  { team_name := "Arizona Cardinals", team_abbr := "ARI", conference := "NFC", division := "West" },
  { team_name := "Atlanta Falcons", team_abbr := "ATL", conference := "NFC", division := "South" },
  { team_name := "Baltimore Ravens", team_abbr := "BAL", conference := "AFC", division := "North" },
  { team_name := "Buffalo Bills", team_abbr := "BUF", conference := "AFC", division := "East" },
  { team_name := "Carolina Panthers", team_abbr := "CAR", conference := "NFC", division := "South" },
  { team_name := "Chicago Bears", team_abbr := "CHI", conference := "NFC", division := "North" },
  { team_name := "Cincinnati Bengals", team_abbr := "CIN", conference := "AFC", division := "North" },
  { team_name := "Cleveland Browns", team_abbr := "CLE", conference := "AFC", division := "North" },
  { team_name := "Dallas Cowboys", team_abbr := "DAL", conference := "NFC", division := "East" },
  { team_name := "Denver Broncos", team_abbr := "DEN", conference := "AFC", division := "West" },
  { team_name := "Detroit Lions", team_abbr := "DET", conference := "NFC", division := "North" },
  { team_name := "Green Bay Packers", team_abbr := "GB", conference := "NFC", division := "North" },
  { team_name := "Houston Texans", team_abbr := "HOU", conference := "AFC", division := "South" },
  { team_name := "Indianapolis Colts", team_abbr := "IND", conference := "AFC", division := "South" },
  { team_name := "Jacksonville Jaguars", team_abbr := "JAX", conference := "AFC", division := "South" },
  { team_name := "Kansas City Chiefs", team_abbr := "KC", conference := "AFC", division := "West" },
  { team_name := "Las Vegas Raiders", team_abbr := "LV", conference := "AFC", division := "West" },
  { team_name := "Los Angeles Chargers", team_abbr := "LAC", conference := "AFC", division := "West" },
  { team_name := "Los Angeles Rams", team_abbr := "LAR", conference := "NFC", division := "West" },
  { team_name := "Miami Dolphins", team_abbr := "MIA", conference := "AFC", division := "East" },
  { team_name := "Minnesota Vikings", team_abbr := "MIN", conference := "NFC", division := "North" },
  { team_name := "New England Patriots", team_abbr := "NE", conference := "AFC", division := "East" },
  { team_name := "New Orleans Saints", team_abbr := "NO", conference := "NFC", division := "South" },
  { team_name := "New York Giants", team_abbr := "NYG", conference := "NFC", division := "East" },
  { team_name := "New York Jets", team_abbr := "NYJ", conference := "AFC", division := "East" },
  { team_name := "Philadelphia Eagles", team_abbr := "PHI", conference := "NFC", division := "East" },
  { team_name := "Pittsburgh Steelers", team_abbr := "PIT", conference := "AFC", division := "North" },
  { team_name := "San Francisco 49ers", team_abbr := "SF", conference := "NFC", division := "West" },
  { team_name := "Seattle Seahawks", team_abbr := "SEA", conference := "NFC", division := "West" },
  { team_name := "Tampa Bay Buccaneers", team_abbr := "TB", conference := "NFC", division := "South" },
  { team_name := "Tennessee Titans", team_abbr := "TEN", conference := "AFC", division := "South" },
  { team_name := "Washington Commanders", team_abbr := "WAS", conference := "NFC", division := "East" }]

/-- One row of the bulk INSERT ... ON CONFLICT (team_abbr) DO NOTHING. -/
def insertTeamIgnore (tbl : List TeamRow) (t : TeamRow) : List TeamRow :=
  if tbl.any (fun r => decide (r.team_abbr = t.team_abbr)) then tbl else tbl ++ [t]

/-- populate_teams: connects, bulk-inserts the fixed team list ignoring
abbreviation conflicts, commits, prints the count of rows actually
inserted (cur.rowcount), closes. -/
def populate_teams (env : Option String) (db : DB) : Except String (DB × List String) :=
  match get_db_connection env with
  | Except.error e => Except.error e
  | Except.ok _ =>
    let tbl2 := teams.foldl insertTeamIgnore db.teams
    Except.ok
      ({ db with teams := tbl2 },
       ["Inserted " ++ toString (tbl2.length - db.teams.length) ++ " teams"])

/-- An HTTP response: status code and, when the body is valid JSON, its
decoded value (none models a body on which response.json() raises). -/
structure HttpResponse where
  status : Nat
  jsonBody : Option Json

/-- Message of the JSONDecodeError raised by response.json() on a body
that is not valid JSON. -/
def jsonDecodeErr : String := "Expecting value: line 1 column 1 (char 0)"

/-- The scoreboard request URL: the week parameter is appended only when
the week argument is truthy. -/
def buildGamesUrl (season : Int) (week : Option Int) : String :=
  if weekTruthy week then
    "https://site.api.espn.com/apis/site/v2/sports/football/nfl/scoreboard?dates="
      ++ toString season ++ "&seasontype=2&week=" ++ toString (week.getD 0)
  else
    "https://site.api.espn.com/apis/site/v2/sports/football/nfl/scoreboard?dates="
      ++ toString season

/-- One row of INSERT ... ON CONFLICT (game_id) DO UPDATE: a non-null
game_id equal to that of a stored row updates the scores, status, and
updated_at of every row with that key (unique, so at most one), leaving
all other columns alone; otherwise a fresh row is appended with both
timestamps set to now. -/
def upsertGame (now : Nat) (t : List StoredGame) (g : GameRow) : List StoredGame :=
  if (!Json.beq g.game_id Json.null)
      && t.any (fun s => Json.beq s.row.game_id g.game_id) then
    t.map (fun s =>
      if Json.beq s.row.game_id g.game_id then
        { s with
          row := { s.row with
            home_score := g.home_score, away_score := g.away_score, status := g.status },
          updated_at := now }
      else s)
  else t ++ [{ row := g, created_at := now, updated_at := now }]

/-- Body of the try block of populate_games: fetch, status check, JSON
decode, event parsing, and, when at least one row was parsed, connect and
bulk-upsert.  Any Except.error models an exception escaping the try
block. -/
def populate_games_core (env : Option String) (fetch : String → HttpResponse)
    (now : Nat) (gt : List StoredGame) (season : Int) (week : Option Int) :
    Except String (List StoredGame × List String) :=
  let resp := fetch (buildGamesUrl season week)
  if resp.status ≠ 200 then
    Except.ok (gt, ["Failed to fetch games: " ++ toString resp.status])
  else
    match resp.jsonBody with
    | none => Except.error jsonDecodeErr
    | some data =>
      match parseGames season week data with
      | Except.error e => Except.error e
      | Except.ok games =>
        if games.isEmpty then
          Except.ok (gt, [])
        else
          match get_db_connection env with
          | Except.error e => Except.error e
          | Except.ok _ =>
            Except.ok
              (games.foldl (upsertGame now) gt,
               ["Inserted/updated " ++ toString games.length ++ " games"])

/-- populate_games: the try block wrapped in the catch-all except clause,
which prints the message and returns normally with the table unchanged. -/
def populate_games (env : Option String) (fetch : String → HttpResponse)
    (now : Nat) (gt : List StoredGame) (season : Int) (week : Option Int) :
    List StoredGame × List String :=
  match populate_games_core env fetch now gt season week with
  | Except.ok r => r
  | Except.error e => (gt, ["Error populating games: " ++ e])

/-- One iteration of the week loop of main: print the fetching line, then
run populate_games for that week of season 2025. -/
def oneWeek (env : Option String) (fetch : String → HttpResponse) (now : Nat)
    (w : Int) (s : List StoredGame × List String) : List StoredGame × List String :=
  let r := populate_games env fetch now s.1 2025 (some w)
  (r.1, s.2 ++ ["   Fetching week " ++ toString w ++ "..."] ++ r.2)

/-- The week loop of main, left to right over the week numbers. -/
def runWeeks (env : Option String) (fetch : String → HttpResponse) (now : Nat)
    (ws : List Int) (s : List StoredGame × List String) :
    List StoredGame × List String :=
  ws.foldl (fun acc w => oneWeek env fetch now w acc) s

/-- Python range(a, b) over Int. -/
def pyRange (a b : Int) : List Int :=
  (List.range (b - a).toNat).map (fun i => a + Int.ofNat i)

/-- scriptMain embeds main of the script: create tables, seed teams, then fetch weeks 1 through
current_week = 11 of season 2025 in ascending order; errors escaping
create_tables or populate_teams propagate out of the process. -/
def scriptMain (env : Option String) (fetch : String → HttpResponse) (now : Nat)
    (db : DB) : Except String (DB × List String) :=
  match create_tables env db with
  | Except.error e => Except.error e
  | Except.ok (db1, l1) =>
    match populate_teams env db1 with
    | Except.error e => Except.error e
    | Except.ok (db2, l2) =>
      let current_week : Int := 11
      let r := runWeeks env fetch now (pyRange 1 (current_week + 1)) (db2.games, [])
      Except.ok
        ({ db2 with games := r.1 },
         ["Starting NFL data population...", "1. Creating tables..."] ++ l1 ++
         ["2. Populating teams..."] ++ l2 ++
         ["3. Populating games for 2025 season..."] ++ r.2 ++
         ["NFL data population completed!"])

/-!
Auxiliary definitions used only to state the verification theorems below.
-/

/-- The else branch of the competitor loop, written out as its own
function: fill the away side from this competitor, leaving the home side
untouched. -/
def awayAssign (st : CompState) (competitor : Json) : Except String CompState := do
  let team ← competitor.pyGetD "team" (Json.obj [])
  let abbr ← team.pyGet "abbreviation"
  let scoreJ ← competitor.pyGetD "score" (Json.num 0)
  let score ← Json.pyInt scoreJ
  pure { st with away_team := abbr, away_score := some score }

/-- The date field of an event object is absent or a string, so that the
split step of parseEvent succeeds. -/
def dateOk (fs : List (String × Json)) : Bool :=
  match Json.pyLookup fs "date" with
  | none => true
  | some (Json.str _) => true
  | some _ => false

/-- The competitions value of an event object (empty list when the key is
absent) is falsy, so that parseEvent skips the event. -/
def competitionsFalsy (fs : List (String × Json)) : Bool :=
  Json.pyFalsy
    (match Json.pyLookup fs "competitions" with
     | some v => v
     | none => Json.arr [])

/-- Synthetic scoreboard event: final game, home AAA 10, away BBB 7. -/
def syntheticEvent1 : Json := Json.obj [
  ("id", Json.str "401001"),
  ("date", Json.str "2025-09-07T17:00Z"),
  ("competitions", Json.arr [Json.obj [
    ("competitors", Json.arr [
      Json.obj [("homeAway", Json.str "home"),
                ("team", Json.obj [("abbreviation", Json.str "AAA")]),
                ("score", Json.num 10)],
      Json.obj [("homeAway", Json.str "away"),
                ("team", Json.obj [("abbreviation", Json.str "BBB")]),
                ("score", Json.num 7)]]),
    ("status", Json.obj [("type", Json.obj [("name", Json.str "final")])])]])]

/-- Synthetic scoreboard event: scheduled game, scores and status absent. -/
def syntheticEvent2 : Json := Json.obj [
  ("id", Json.str "401002"),
  ("date", Json.str "2025-09-14T17:00Z"),
  ("competitions", Json.arr [Json.obj [
    ("competitors", Json.arr [
      Json.obj [("homeAway", Json.str "home"),
                ("team", Json.obj [("abbreviation", Json.str "CCC")])],
      Json.obj [("homeAway", Json.str "away"),
                ("team", Json.obj [("abbreviation", Json.str "DDD")])]])]])]

/-- The synthetic scoreboard response body with the two events. -/
def syntheticBody : Json := Json.obj [("events", Json.arr [syntheticEvent1, syntheticEvent2])]

/-!
Helper lemmas.
-/

/-- The schema has a table of the given name. -/
def containsTable (schema : List TableDef) (n : String) : Bool :=
  schema.any (fun td => decide (td.name = n))

lemma createIfNotExists_contains_self (s : List TableDef) (t : TableDef) :
    containsTable (createIfNotExists s t) t.name = true := by
  unfold createIfNotExists containsTable
  by_cases h : s.any (fun td => decide (td.name = t.name)) = true
  · rw [if_pos h]; exact h
  · rw [if_neg h]; simp [List.any_append]

lemma createIfNotExists_mono (s : List TableDef) (t : TableDef) (n : String)
    (h : containsTable s n = true) :
    containsTable (createIfNotExists s t) n = true := by
  unfold createIfNotExists
  by_cases hc : s.any (fun td => decide (td.name = t.name)) = true
  · rw [if_pos hc]; exact h
  · rw [if_neg hc]
    unfold containsTable at h ⊢
    simp [List.any_append, h]

lemma createIfNotExists_of_contains (s : List TableDef) (t : TableDef)
    (h : containsTable s t.name = true) :
    createIfNotExists s t = s := by
  unfold createIfNotExists
  exact if_pos h

lemma createAllTables_contains (s : List TableDef) :
    containsTable (createAllTables s) "nfl_teams" = true ∧
    containsTable (createAllTables s) "nfl_games" = true ∧
    containsTable (createAllTables s) "nfl_players" = true ∧
    containsTable (createAllTables s) "nfl_player_stats" = true := by
  unfold createAllTables
  simp only [List.foldl_cons, List.foldl_nil]
  refine ⟨?_, ?_, ?_, ?_⟩
  · exact createIfNotExists_mono _ _ _ (createIfNotExists_mono _ _ _
      (createIfNotExists_mono _ _ _ (createIfNotExists_contains_self _ _)))
  · exact createIfNotExists_mono _ _ _ (createIfNotExists_mono _ _ _
      (createIfNotExists_contains_self _ _))
  · exact createIfNotExists_mono _ _ _ (createIfNotExists_contains_self _ _)
  · exact createIfNotExists_contains_self _ _

lemma createAllTables_idem (s : List TableDef) :
    createAllTables (createAllTables s) = createAllTables s := by
  obtain ⟨h1, h2, h3, h4⟩ := createAllTables_contains s
  show [nflTeamsTable, nflGamesTable, nflPlayersTable, nflPlayerStatsTable].foldl
      createIfNotExists (createAllTables s) = createAllTables s
  simp only [List.foldl_cons, List.foldl_nil]
  rw [createIfNotExists_of_contains _ nflTeamsTable h1,
      createIfNotExists_of_contains _ nflGamesTable h2,
      createIfNotExists_of_contains _ nflPlayersTable h3,
      createIfNotExists_of_contains _ nflPlayerStatsTable h4]

lemma populate_games_fail (env : Option String) (fetch : String → HttpResponse)
    (now : Nat) (gt : List StoredGame) (season : Int) (week : Option Int)
    (h : (fetch (buildGamesUrl season week)).status ≠ 200) :
    populate_games env fetch now gt season week =
      (gt, ["Failed to fetch games: " ++ toString (fetch (buildGamesUrl season week)).status]) := by
  unfold populate_games populate_games_core
  simp only []
  rw [if_pos h]

lemma runWeeks_fst_of_fail (env : Option String) (fetch : String → HttpResponse)
    (now : Nat) (h : ∀ url, (fetch url).status ≠ 200) :
    ∀ (ws : List Int) (s : List StoredGame × List String),
      (runWeeks env fetch now ws s).1 = s.1 := by
  intro ws
  induction ws with
  | nil => intro s; rfl
  | cons w ws ih =>
    intro s
    show (runWeeks env fetch now ws (oneWeek env fetch now w s)).1 = s.1
    rw [ih]
    show (populate_games env fetch now s.1 2025 (some w)).1 = s.1
    rw [populate_games_fail env fetch now s.1 2025 (some w) (h _)]

lemma foldlM_collect_skip (season : Int) (week : Option Int) :
    ∀ (es : List Json) (acc : List GameRow),
      (∀ e ∈ es, parseEvent season week e = Except.ok none) →
      List.foldlM (collectEvent season week) acc es = Except.ok acc := by
  intro es
  induction es with
  | nil => intro acc _; rfl
  | cons e es ih =>
    intro acc h
    have he : parseEvent season week e = Except.ok none := h e (by simp)
    show Except.bind (collectEvent season week acc e) _ = _
    unfold collectEvent
    rw [he]
    show List.foldlM (collectEvent season week) acc es = Except.ok acc
    exact ih acc (fun x hx => h x (by simp [hx]))

/-!
Claim theorems.
-/

/-- C1: when a row with the same non-null external game identifier already
exists in the games table, the upsert overwrites only the home score, away
score, status, and updated_at columns of that row; game_id, season, week,
game_date, home_team, away_team, and created_at keep their stored values,
and no new row is added (the table length is unchanged). -/
theorem upsert_conflict_updates_only_scores_status_timestamp
    (now : Nat) (t : List StoredGame) (g : GameRow)
    (h1 : Json.beq g.game_id Json.null = false)
    (h2 : t.any (fun s => Json.beq s.row.game_id g.game_id) = true) :
    upsertGame now t g =
      t.map (fun s =>
        if Json.beq s.row.game_id g.game_id then
          { row :=
              { game_id := s.row.game_id, season := s.row.season, week := s.row.week,
                game_date := s.row.game_date, home_team := s.row.home_team,
                away_team := s.row.away_team, home_score := g.home_score,
                away_score := g.away_score, status := g.status },
            created_at := s.created_at, updated_at := now }
        else s) ∧
    (upsertGame now t g).length = t.length := by
  have hcond : ((!Json.beq g.game_id Json.null)
      && t.any (fun s => Json.beq s.row.game_id g.game_id)) = true := by
    rw [h1, h2]; rfl
  constructor
  · unfold upsertGame
    rw [if_pos hcond]
  · unfold upsertGame
    rw [if_pos hcond, List.length_map]

/-- Stored row used to exercise the conflict branch of the upsert. -/
def conflictStored : StoredGame :=
  { row := { game_id := Json.str "401", season := 2024, week := Json.num 2,
             game_date := "2024-09-01", home_team := Json.str "AAA",
             away_team := Json.str "BBB", home_score := some 0, away_score := some 0,
             status := Json.str "scheduled" },
    created_at := 2, updated_at := 2 }

/-- Fresh row with the same game identifier and updated scores. -/
def conflictIncoming : GameRow :=
  { game_id := Json.str "401", season := 2025, week := Json.num 9,
    game_date := "2025-01-01", home_team := Json.str "XXX",
    away_team := Json.str "YYY", home_score := some 21, away_score := some 14,
    status := Json.str "final" }

/-- Witness for C1 at a concrete table and row. -/
theorem upsert_conflict_updates_only_scores_status_timestamp_witness :
    upsertGame 5 [conflictStored] conflictIncoming =
      [conflictStored].map (fun s =>
        if Json.beq s.row.game_id conflictIncoming.game_id then
          { row :=
              { game_id := s.row.game_id, season := s.row.season, week := s.row.week,
                game_date := s.row.game_date, home_team := s.row.home_team,
                away_team := s.row.away_team, home_score := conflictIncoming.home_score,
                away_score := conflictIncoming.away_score, status := conflictIncoming.status },
            created_at := s.created_at, updated_at := 5 }
        else s) ∧
    (upsertGame 5 [conflictStored] conflictIncoming).length = [conflictStored].length :=
  upsert_conflict_updates_only_scores_status_timestamp 5 [conflictStored] conflictIncoming
    (by rfl) (by rfl)

/-- C2: on the synthetic scoreboard response with two events (one final,
home AAA 10, away BBB 7; one with scores and status absent), populate_games
writes exactly two game rows with the identifiers of the input events,
scores defaulting to 0 where the score field is absent, and status
defaulting to scheduled where the nested status path is missing. -/
theorem populate_games_synthetic_two_events :
    populate_games (some "postgres://db")
        (fun _ => { status := 200, jsonBody := some syntheticBody }) 7 [] 2025 (some 3) =
      ([{ row := { game_id := Json.str "401001", season := 2025, week := Json.num 3,
                   game_date := "2025-09-07", home_team := Json.str "AAA",
                   away_team := Json.str "BBB", home_score := some 10,
                   away_score := some 7, status := Json.str "final" },
          created_at := 7, updated_at := 7 },
        { row := { game_id := Json.str "401002", season := 2025, week := Json.num 3,
                   game_date := "2025-09-14", home_team := Json.str "CCC",
                   away_team := Json.str "DDD", home_score := some 0,
                   away_score := some 0, status := Json.str "scheduled" },
          created_at := 7, updated_at := 7 }],
       ["Inserted/updated 2 games"]) := by
  rfl

/-- C3: any exception raised inside the fetch/parse/upsert body of
populate_games is caught at its top level, logged with its message, and
swallowed: the function returns normally with the games table unchanged,
and the week loop of the driver composes sequentially, so every other week
in the loop is still processed. -/
theorem populate_games_swallows_exceptions :
    (∀ (env : Option String) (fetch : String → HttpResponse) (now : Nat)
        (gt : List StoredGame) (season : Int) (week : Option Int) (e : String),
      populate_games_core env fetch now gt season week = Except.error e →
      populate_games env fetch now gt season week =
        (gt, ["Error populating games: " ++ e])) ∧
    (∀ (env : Option String) (fetch : String → HttpResponse) (now : Nat)
        (ws1 ws2 : List Int) (s : List StoredGame × List String),
      runWeeks env fetch now (ws1 ++ ws2) s =
        runWeeks env fetch now ws2 (runWeeks env fetch now ws1 s)) := by
  constructor
  · intro env fetch now gt season week e h
    unfold populate_games
    rw [h]
  · intro env fetch now ws1 ws2 s
    unfold runWeeks
    exact List.foldl_append _ _ _ _

/-- A response whose body has a malformed event (an integer where an event
object is expected), so that the parse raises mid-loop. -/
def malformedFetch : String → HttpResponse :=
  fun _ => { status := 200, jsonBody := some (Json.obj [("events", Json.arr [Json.num 5])]) }

/-- Witness for C3: the malformed event raises inside the parse and the
operation still returns normally with the table unchanged, and the week
loop on 1, 2 equals week 2 run after week 1. -/
theorem populate_games_swallows_exceptions_witness :
    populate_games (some "postgres://db") malformedFetch 7 [] 2025 (some 1) =
      ([], ["Error populating games: " ++ "int object has no attribute get"]) ∧
    runWeeks (some "postgres://db") malformedFetch 7 ([1] ++ [2]) ([], []) =
      runWeeks (some "postgres://db") malformedFetch 7 [2]
        (runWeeks (some "postgres://db") malformedFetch 7 [1] ([], [])) :=
  ⟨populate_games_swallows_exceptions.1 (some "postgres://db") malformedFetch 7 [] 2025
      (some 1) "int object has no attribute get" (by rfl),
   populate_games_swallows_exceptions.2 (some "postgres://db") malformedFetch 7 [1] [2] ([], [])⟩

/-- C4: a non-success HTTP status makes populate_games log the status and
return normally with zero game rows written; and a driver run in which
every fetch returns a non-success status still completes without raising,
with the games table unchanged at the end. -/
theorem non_success_status_writes_nothing :
    (∀ (env : Option String) (fetch : String → HttpResponse) (now : Nat)
        (gt : List StoredGame) (season : Int) (week : Option Int),
      (fetch (buildGamesUrl season week)).status ≠ 200 →
      populate_games env fetch now gt season week =
        (gt, ["Failed to fetch games: "
                ++ toString (fetch (buildGamesUrl season week)).status])) ∧
    (∀ (env : Option String) (c : Conn) (fetch : String → HttpResponse) (now : Nat) (db : DB),
      get_db_connection env = Except.ok c →
      (∀ url, (fetch url).status ≠ 200) →
      ∃ db2 logs, scriptMain env fetch now db = Except.ok (db2, logs) ∧
        db2.games = db.games) := by
  constructor
  · intro env fetch now gt season week h
    exact populate_games_fail env fetch now gt season week h
  · intro env c fetch now db hconn hfail
    refine
      ⟨{ schema := createAllTables db.schema,
         teams := teams.foldl insertTeamIgnore db.teams,
         games := (runWeeks env fetch now (pyRange 1 (11 + 1)) (db.games, [])).1 },
       ["Starting NFL data population...", "1. Creating tables...",
        "Tables created successfully", "2. Populating teams...",
        "Inserted "
          ++ toString ((teams.foldl insertTeamIgnore db.teams).length - db.teams.length)
          ++ " teams",
        "3. Populating games for 2025 season..."]
         ++ (runWeeks env fetch now (pyRange 1 (11 + 1)) (db.games, [])).2
         ++ ["NFL data population completed!"], ?_, ?_⟩
    · unfold scriptMain create_tables populate_teams
      rw [hconn]
      dsimp only
      rfl
    · dsimp only
      rw [runWeeks_fst_of_fail env fetch now hfail]

/-- Fetch that always returns HTTP status 500. -/
def alwaysFailFetch : String → HttpResponse := fun _ => { status := 500, jsonBody := none }

/-- Witness for C4: with every fetch failing, a single week writes nothing
and logs the status, and the whole driver still succeeds with an unchanged
(empty) games table. -/
theorem non_success_status_writes_nothing_witness :
    populate_games (some "postgres://db") alwaysFailFetch 3 [] 2025 (some 2) =
      ([], ["Failed to fetch games: "
              ++ toString (alwaysFailFetch (buildGamesUrl 2025 (some 2))).status]) ∧
    ∃ db2 logs,
      scriptMain (some "postgres://db") alwaysFailFetch 3
          { schema := [], teams := [], games := [] } = Except.ok (db2, logs) ∧
      db2.games = ({ schema := [], teams := [], games := [] } : DB).games :=
  ⟨non_success_status_writes_nothing.1 (some "postgres://db") alwaysFailFetch 3 [] 2025
      (some 2) (by decide),
   non_success_status_writes_nothing.2 (some "postgres://db") { url := "postgres://db" }
      alwaysFailFetch 3 { schema := [], teams := [], games := [] } (by rfl)
      (fun _ => by simp [alwaysFailFetch])⟩

/-- Seeding an empty teams table inserts the whole embedded list. -/
lemma seed_fold_empty : teams.foldl insertTeamIgnore [] = teams := by decide

/-- Re-seeding a fully seeded table skips every row. -/
lemma seed_fold_full : teams.foldl insertTeamIgnore teams = teams := by decide

/-- C5: the embedded team list has exactly 32 records, and seeding an
empty teams table twice leaves exactly 32 rows, raises no error, and the
second run reports zero rows inserted (do nothing on duplicate
abbreviation). -/
theorem seeding_teams_twice_keeps_32_rows :
    teams.length = 32 ∧
    ∀ (env : Option String) (c : Conn) (sch : List TableDef) (gms : List StoredGame),
      get_db_connection env = Except.ok c →
      ∃ db1, populate_teams env { schema := sch, teams := [], games := gms } =
          Except.ok (db1, ["Inserted 32 teams"]) ∧
        db1.teams.length = 32 ∧
        populate_teams env db1 = Except.ok (db1, ["Inserted 0 teams"]) := by
  refine ⟨rfl, ?_⟩
  intro env c sch gms hconn
  refine ⟨{ schema := sch, teams := teams, games := gms }, ?_, rfl, ?_⟩
  · unfold populate_teams
    rw [hconn]
    dsimp only
    rw [seed_fold_empty]
    rfl
  · unfold populate_teams
    rw [hconn]
    dsimp only
    rw [seed_fold_full]
    rfl

/-- Witness for C5 at a concrete connection string and empty database. -/
theorem seeding_teams_twice_keeps_32_rows_witness :
    teams.length = 32 ∧
    ∃ db1, populate_teams (some "postgres://db") { schema := [], teams := [], games := [] } =
        Except.ok (db1, ["Inserted 32 teams"]) ∧
      db1.teams.length = 32 ∧
      populate_teams (some "postgres://db") db1 = Except.ok (db1, ["Inserted 0 teams"]) :=
  ⟨seeding_teams_twice_keeps_32_rows.1,
   seeding_teams_twice_keeps_32_rows.2 (some "postgres://db") { url := "postgres://db" }
     [] [] (by rfl)⟩

/-- C6 counterexample: a DATABASE_URL that is present in the environment
but empty is falsy in Python, so get_db_connection raises its
configuration error instead of returning a connection, contradicting the
claim that a present value yields a connection. -/
theorem present_empty_url_raises_not_connects :
    get_db_connection (some "") =
      Except.error "DATABASE_URL environment variable not set" := rfl

/-- C6 amended: if DATABASE_URL is absent, the configuration error
propagates unrecovered through the entry point, terminating the run before
any table is touched; if the value is present and non-empty, a connection
is returned. -/
theorem missing_database_url_is_fatal :
    (∀ (fetch : String → HttpResponse) (now : Nat) (db : DB),
      scriptMain none fetch now db =
        Except.error "DATABASE_URL environment variable not set") ∧
    (∀ (db : DB), create_tables none db =
        Except.error "DATABASE_URL environment variable not set") ∧
    (∀ u, u ≠ "" → get_db_connection (some u) = Except.ok { url := u }) := by
  refine ⟨fun fetch now db => rfl, fun db => rfl, ?_⟩
  intro u hu
  unfold get_db_connection
  dsimp only
  rw [if_neg hu]

/-- Witness for the amended C6: a non-empty URL yields a connection, and a
run without the variable fails with the configuration error. -/
theorem missing_database_url_is_fatal_witness :
    get_db_connection (some "postgres://db") = Except.ok { url := "postgres://db" } ∧
    scriptMain none alwaysFailFetch 0 { schema := [], teams := [], games := [] } =
      Except.error "DATABASE_URL environment variable not set" :=
  ⟨missing_database_url_is_fatal.2.2 "postgres://db" (by decide),
   missing_database_url_is_fatal.1 alwaysFailFetch 0 { schema := [], teams := [], games := [] }⟩

/-- C7: schema creation is idempotent: with a working connection,
create_tables succeeds on any database, and running it again on the result
succeeds with the very same table definitions and output. -/
theorem create_tables_idempotent :
    ∀ (env : Option String) (c : Conn) (db : DB),
      get_db_connection env = Except.ok c →
      ∃ db1 log, create_tables env db = Except.ok (db1, log) ∧
        create_tables env db1 = Except.ok (db1, log) := by
  intro env c db hconn
  refine ⟨{ db with schema := createAllTables db.schema },
    ["Tables created successfully"], ?_, ?_⟩
  · unfold create_tables
    rw [hconn]
  · unfold create_tables
    rw [hconn]
    dsimp only
    rw [createAllTables_idem]

/-- Witness for C7 at a concrete connection string and empty database. -/
theorem create_tables_idempotent_witness :
    ∃ db1 log,
      create_tables (some "postgres://db") { schema := [], teams := [], games := [] } =
        Except.ok (db1, log) ∧
      create_tables (some "postgres://db") db1 = Except.ok (db1, log) :=
  create_tables_idempotent (some "postgres://db") { url := "postgres://db" }
    { schema := [], teams := [], games := [] } (by rfl)

/-- C8: the driver runs in strict order: create the schema, seed the
teams, then for season 2025 invoke the game fetcher exactly once per week
for each week number from 1 through 11 inclusive, ascending,
sequentially (range(1, current_week + 1) with current_week = 11). -/
theorem driver_runs_schema_teams_then_weeks_1_to_11 :
    ∀ (env : Option String) (fetch : String → HttpResponse) (now : Nat) (db : DB),
      scriptMain env fetch now db =
        match create_tables env db with
        | Except.error e => Except.error e
        | Except.ok (db1, l1) =>
          match populate_teams env db1 with
          | Except.error e => Except.error e
          | Except.ok (db2, l2) =>
            let r := oneWeek env fetch now 11 (oneWeek env fetch now 10 (oneWeek env fetch now 9
              (oneWeek env fetch now 8 (oneWeek env fetch now 7 (oneWeek env fetch now 6
              (oneWeek env fetch now 5 (oneWeek env fetch now 4 (oneWeek env fetch now 3
              (oneWeek env fetch now 2 (oneWeek env fetch now 1 (db2.games, [])))))))))))
            Except.ok ({ db2 with games := r.1 },
              ["Starting NFL data population...", "1. Creating tables..."] ++ l1 ++
              ["2. Populating teams..."] ++ l2 ++
              ["3. Populating games for 2025 season..."] ++ r.2 ++
              ["NFL data population completed!"]) := by
  intro env fetch now db
  rfl

/-- C9: every competitor whose homeAway field is not exactly the string
home - including a missing field or any other value - is handled by the
away branch, which fills the away side from that competitor and leaves the
home side untouched; the loop folds left to right, so appending one more
competitor applies its step last, and within a branch the last competitor
iterated determines that side. -/
theorem non_home_competitors_fill_away_side :
    (∀ (st : CompState) (c : Json) (ha : Json),
      c.pyGet "homeAway" = Except.ok ha →
      Json.beq ha (Json.str "home") = false →
      stepCompetitor st c = awayAssign st c) ∧
    (∀ (st : CompState) (c : Json) (st2 : CompState),
      awayAssign st c = Except.ok st2 →
      st2.home_team = st.home_team ∧ st2.home_score = st.home_score) ∧
    (∀ (st : CompState) (cs : List Json) (c : Json),
      foldCompetitors st (cs ++ [c]) =
        (foldCompetitors st cs) >>= (fun st1 => stepCompetitor st1 c)) := by
  refine ⟨?_, ?_, ?_⟩
  · intro st c ha h h2
    unfold stepCompetitor
    rw [h]
    show (if Json.beq ha (Json.str "home") = true then (do
        let team ← c.pyGetD "team" (Json.obj [])
        let abbr ← team.pyGet "abbreviation"
        let scoreJ ← c.pyGetD "score" (Json.num 0)
        let score ← Json.pyInt scoreJ
        pure { st with home_team := abbr, home_score := some score })
      else awayAssign st c) = awayAssign st c
    rw [h2]
    simp
  · intro st c st2 h
    unfold awayAssign at h
    cases hteam : c.pyGetD "team" (Json.obj []) with
    | error e => rw [hteam] at h; exact Except.noConfusion h
    | ok team =>
      rw [hteam] at h
      have h : (do
          let abbr ← team.pyGet "abbreviation"
          let scoreJ ← c.pyGetD "score" (Json.num 0)
          let score ← Json.pyInt scoreJ
          pure { st with away_team := abbr, away_score := some score } :
            Except String CompState) = Except.ok st2 := h
      cases habbr : team.pyGet "abbreviation" with
      | error e => rw [habbr] at h; exact Except.noConfusion h
      | ok abbr =>
        rw [habbr] at h
        have h : (do
            let scoreJ ← c.pyGetD "score" (Json.num 0)
            let score ← Json.pyInt scoreJ
            pure { st with away_team := abbr, away_score := some score } :
              Except String CompState) = Except.ok st2 := h
        cases hscoreJ : c.pyGetD "score" (Json.num 0) with
        | error e => rw [hscoreJ] at h; exact Except.noConfusion h
        | ok scoreJ =>
          rw [hscoreJ] at h
          have h : (do
              let score ← Json.pyInt scoreJ
              pure { st with away_team := abbr, away_score := some score } :
                Except String CompState) = Except.ok st2 := h
          cases hscore : Json.pyInt scoreJ with
          | error e => rw [hscore] at h; exact Except.noConfusion h
          | ok score =>
            rw [hscore] at h
            have hst : ({ st with away_team := abbr, away_score := some score } : CompState)
                = st2 := Except.ok.inj h
            rw [← hst]
            exact ⟨rfl, rfl⟩
  · intro st cs c
    unfold foldCompetitors
    rw [List.foldlM_append]
    simp only [List.foldlM_cons, List.foldlM_nil, bind_pure]

/-- A competitor carrying an explicit away flag. -/
def awayComp : Json := Json.obj [("homeAway", Json.str "away"),
  ("team", Json.obj [("abbreviation", Json.str "ZZZ")]), ("score", Json.num 3)]

/-- The loop state after awayComp fills the away side from the initial
state. -/
def awayState : CompState :=
  { home_team := Json.null, away_team := Json.str "ZZZ",
    home_score := none, away_score := some 3 }

/-- Witness for C9 on a concrete away competitor. -/
theorem non_home_competitors_fill_away_side_witness :
    stepCompetitor CompState.init awayComp = awayAssign CompState.init awayComp ∧
    (awayState.home_team = CompState.init.home_team ∧
     awayState.home_score = CompState.init.home_score) ∧
    foldCompetitors CompState.init ([awayComp] ++ [awayComp]) =
      (foldCompetitors CompState.init [awayComp]) >>=
        (fun st1 => stepCompetitor st1 awayComp) :=
  ⟨non_home_competitors_fill_away_side.1 CompState.init awayComp (Json.str "away") rfl rfl,
   non_home_competitors_fill_away_side.2.1 CompState.init awayComp awayState (by rfl),
   non_home_competitors_fill_away_side.2.2 CompState.init [awayComp] awayComp⟩

/-- C10: when the parsed games list is empty, populate_games performs no
database write and opens no connection (the result is the unchanged table
for every environment, even one with no DATABASE_URL); the parsed list is
empty whenever every event is skipped, and an event whose competitions
list is empty or missing is skipped, producing no row. -/
theorem empty_parse_writes_nothing :
    (∀ (env : Option String) (fetch : String → HttpResponse) (now : Nat)
        (gt : List StoredGame) (season : Int) (week : Option Int) (data : Json),
      (fetch (buildGamesUrl season week)).status = 200 →
      (fetch (buildGamesUrl season week)).jsonBody = some data →
      parseGames season week data = Except.ok [] →
      populate_games env fetch now gt season week = (gt, [])) ∧
    (∀ (season : Int) (week : Option Int) (data : Json) (es : List Json),
      data.pyGetD "events" (Json.arr []) = Except.ok (Json.arr es) →
      (∀ e ∈ es, parseEvent season week e = Except.ok none) →
      parseGames season week data = Except.ok []) ∧
    (∀ (season : Int) (week : Option Int) (idv : Json) (d : String),
      parseEvent season week
          (Json.obj [("id", idv), ("date", Json.str d), ("competitions", Json.arr [])]) =
        Except.ok none ∧
      parseEvent season week (Json.obj [("id", idv), ("date", Json.str d)]) =
        Except.ok none) := by
  refine ⟨?_, ?_, ?_⟩
  · intro env fetch now gt season week data h200 hbody hparse
    unfold populate_games populate_games_core
    dsimp only
    rw [h200, if_neg (by decide), hbody]
    dsimp only
    rw [hparse]
    rfl
  · intro season week data es hget hskip
    unfold parseGames
    rw [hget]
    show List.foldlM (collectEvent season week) ([] : List GameRow) es = Except.ok []
    exact foldlM_collect_skip season week es [] hskip
  · intro season week idv d
    exact ⟨rfl, rfl⟩

/-- Witness for C10: a response whose only event has an empty competitions
list yields no row and leaves the table unchanged even with no
DATABASE_URL in the environment. -/
theorem empty_parse_writes_nothing_witness :
    populate_games none
        (fun _ => { status := 200,
                    jsonBody := some (Json.obj [("events", Json.arr
                      [Json.obj [("id", Json.str "401003"),
                                 ("date", Json.str "2025-09-21T17:00Z"),
                                 ("competitions", Json.arr [])]])]) })
        7 [] 2025 (some 3) = ([], []) ∧
    parseGames 2025 (some 3)
        (Json.obj [("events", Json.arr
          [Json.obj [("id", Json.str "401003"),
                     ("date", Json.str "2025-09-21T17:00Z"),
                     ("competitions", Json.arr [])]])]) = Except.ok [] ∧
    parseEvent 2025 (some 3)
        (Json.obj [("id", Json.str "401003"), ("date", Json.str "2025-09-21T17:00Z"),
                   ("competitions", Json.arr [])]) = Except.ok none :=
  ⟨empty_parse_writes_nothing.1 none _ 7 [] 2025 (some 3)
      (Json.obj [("events", Json.arr
        [Json.obj [("id", Json.str "401003"),
                   ("date", Json.str "2025-09-21T17:00Z"),
                   ("competitions", Json.arr [])]])]) rfl rfl (by rfl),
   empty_parse_writes_nothing.2.1 2025 (some 3)
      (Json.obj [("events", Json.arr
        [Json.obj [("id", Json.str "401003"),
                   ("date", Json.str "2025-09-21T17:00Z"),
                   ("competitions", Json.arr [])]])])
      [Json.obj [("id", Json.str "401003"), ("date", Json.str "2025-09-21T17:00Z"),
                 ("competitions", Json.arr [])]]
      rfl
      (fun e he => by
        rw [List.mem_singleton.mp he]
        exact (empty_parse_writes_nothing.2.2 2025 (some 3) (Json.str "401003")
          "2025-09-21T17:00Z").1),
   (empty_parse_writes_nothing.2.2 2025 (some 3) (Json.str "401003")
      "2025-09-21T17:00Z").1⟩
